import Mathlib

/-!
Shallow embedding of the commerce-consistency core of the OnlineShop
backend (`backend/app/crud/cart.py`, `backend/app/crud/order.py`,
`backend/app/utils/order_number.py`, `backend/app/core/constants.py`,
`backend/app/api/endpoints/order.py`), together with theorems checking
the natural-language specification against it.

Database tables are embedded as Lean lists of rows; SQL statements
become list operations (`select ... limit 1` is `List.find?`,
`delete`/`update` are `filter`/`map` over the row list).  Python strings
that are compared by the database (order numbers) are embedded as
`List Char`, so that the SQL `ORDER BY order_number DESC` becomes the
lexicographic order on `List Char`.  Prices (Python `float` columns)
are embedded as rationals.
-/

namespace OnlineShop

/-- `Constants.MAX_CART_ITEM_QUANTITY` from `core/constants.py`. -/
def MAX_CART_ITEM_QUANTITY : Nat := 999

/-- `Constants.CART_SESSION_LIFETIME_DAYS` from `core/constants.py`. -/
def CART_SESSION_LIFETIME_DAYS : Nat := 30

/-- One day of `timedelta(days=...)`, in seconds (time is embedded as
seconds on `Int`). -/
def SECONDS_PER_DAY : Nat := 86400

/-- A row of the `products` table (`models/product.py`), restricted to
the columns the commerce core reads. -/
structure Product where
  id : Nat
  name : List Char
  price : ℚ
  is_active : Bool
deriving DecidableEq, Repr

/-- A row of the `cart_items` table (`models/cart.py`). -/
structure CartItem where
  id : Nat
  cart_id : Nat
  product_id : Nat
  quantity : Nat
  price_at_addition : ℚ
deriving DecidableEq, Repr

/-- A row of the `carts` table (`models/cart.py`): either a guest cart
(`session_id` set) or a user cart (`user_id` set). -/
structure CartRow where
  id : Nat
  session_id : Option Nat
  user_id : Option Nat
  expires_at : Int
deriving DecidableEq, Repr

/-- The cart-side database state used by `CRUDCart.merge_carts`: the set
of cart ids that exist plus the `cart_items` table. -/
structure MergeState where
  carts : List Nat
  items : List CartItem
deriving DecidableEq, Repr

/-- The `select(CartItem).where(cart_id == c, product_id == p)` /
`.scalars().first()` query used by `add_item` and `merge_carts`. -/
def findItem (cid pid : Nat) (l : List CartItem) : Option CartItem :=
  l.find? (fun it => it.cart_id == cid && it.product_id == pid)

/-- The rows of one cart: `session_cart.items` / `user_cart.items`. -/
def itemsOf (cid : Nat) (l : List CartItem) : List CartItem :=
  l.filter (fun it => it.cart_id == cid)

/-- `UPDATE cart_items SET quantity = q WHERE id = iid` (the ORM
assignment `existing_item.quantity = new_quantity` followed by commit). -/
def setQuantity (iid q : Nat) (l : List CartItem) : List CartItem :=
  l.map (fun it => if it.id = iid then { it with quantity := q } else it)

/-- `update(CartItem).where(CartItem.id == iid).values(cart_id = cid)` —
the ownership move in `merge_carts`. -/
def setCartId (iid cid : Nat) (l : List CartItem) : List CartItem :=
  l.map (fun it => if it.id = iid then { it with cart_id := cid } else it)

/-- `session.delete(session_item)`: remove the row with this id. -/
def deleteItem (iid : Nat) (l : List CartItem) : List CartItem :=
  l.filter (fun it => it.id != iid)

/-- The quantity clamp of `add_item` and `merge_carts`:
`if new_quantity > MAX_CART_ITEM_QUANTITY: new_quantity = MAX...`. -/
def clampQty (q : Nat) : Nat :=
  if q > MAX_CART_ITEM_QUANTITY then MAX_CART_ITEM_QUANTITY else q

/-- The body of the `for session_item in session_items:` loop of
`CRUDCart.merge_carts`: if the user cart already holds the product, sum
the quantities (clamped) into the user line and delete the session line;
otherwise move the session line by rewriting its `cart_id`. -/
def mergeStep (ucid : Nat) (items : List CartItem) (si : CartItem) :
    List CartItem :=
  match findItem ucid si.product_id items with
  | some u =>
      deleteItem si.id
        (setQuantity u.id (clampQty (u.quantity + si.quantity)) items)
  | none => setCartId si.id ucid items

/-- `session.delete(session_cart)` with the ORM cascade
`all, delete-orphan`: the cart id disappears and so do all of the
cart's item rows. -/
def deleteCartCascade (cid : Nat) (s : MergeState) : MergeState :=
  { carts := s.carts.filter (fun c => c != cid),
    items := s.items.filter (fun it => it.cart_id != cid) }

/-- `CRUDCart.merge_carts(session_cart, user_cart)` from
`crud/cart.py`, acting on the embedded state.  `scid`/`ucid` are the ids
of the guest and the user cart. -/
def merge_carts (scid ucid : Nat) (s : MergeState) : MergeState :=
  let sessionItems := itemsOf scid s.items
  if sessionItems = [] then
    deleteCartCascade scid s
  else
    let items' := sessionItems.foldl (mergeStep ucid) s.items
    let s' : MergeState := { carts := s.carts, items := items' }
    if itemsOf scid items' = [] then deleteCartCascade scid s' else s'

/-- The `select(Product).where(id == pid, is_active == True)` lookup at
the top of `CRUDCart.add_item`. -/
def findActiveProduct (pid : Nat) (ps : List Product) : Option Product :=
  ps.find? (fun p => p.id == pid && p.is_active)

/-- `CRUDCart.add_item(cart, product_id, quantity)` from `crud/cart.py`.
Returns the returned `CartItem` together with the updated `cart_items`
table; `newItemId` is the primary key the database would assign to a
freshly inserted row. -/
def add_item (cid pid qty : Nat) (ps : List Product)
    (items : List CartItem) (newItemId : Nat) :
    Except String (CartItem × List CartItem) :=
  match findActiveProduct pid ps with
  | none => .error "Product not found or inactive"
  | some p =>
    match findItem cid pid items with
    | some existing =>
        let nq := clampQty (existing.quantity + qty)
        .ok ({ existing with quantity := nq }, setQuantity existing.id nq items)
    | none =>
        let it : CartItem :=
          { id := newItemId, cart_id := cid, product_id := pid,
            quantity := qty, price_at_addition := p.price }
        .ok (it, items ++ [it])

/-- `CRUDCart.get_by_session`: `select(Cart).where(session_id == sid)`,
first row.  Note: no expiry condition appears in the query. -/
def get_by_session (sid : Nat) (carts : List CartRow) : Option CartRow :=
  carts.find? (fun c => c.session_id == some sid)

/-- `CRUDCart.get_or_create_for_session`: reuse the cart found by
`get_by_session`, otherwise insert a new cart whose `expires_at` is
`utcnow() + timedelta(days=CART_SESSION_LIFETIME_DAYS)`.  `now` is the
current time in seconds, `newId` the fresh primary key.  Returns the
cart together with the updated `carts` table. -/
def get_or_create_for_session (sid : Nat) (now : Int) (newId : Nat)
    (carts : List CartRow) : CartRow × List CartRow :=
  match get_by_session sid carts with
  | some c => (c, carts)
  | none =>
      let c : CartRow :=
        { id := newId, session_id := some sid, user_id := none,
          expires_at := now + (CART_SESSION_LIFETIME_DAYS * SECONDS_PER_DAY : Nat) }
      (c, carts ++ [c])

/-- `OrderStatus` from `models/order.py`. -/
inductive OrderStatus where
  | created
  | updated
  | confirmed
  | shipped
  | canceled
deriving DecidableEq, Repr

/-- `OrderStatus.value` — the string value of the Python enum member. -/
def OrderStatus.value : OrderStatus → String
  | .created => "created"
  | .updated => "updated"
  | .confirmed => "confirmed"
  | .shipped => "shipped"
  | .canceled => "canceled"

/-- The customer snapshot columns of the `orders` table
(`models/order.py`), copied from `order_data` at creation. -/
structure CustomerData where
  first_name : List Char
  last_name : List Char
  city : List Char
  postal_code : List Char
  address : List Char
  phone : List Char
  email : List Char
  notes : Option (List Char)
deriving DecidableEq, Repr

/-- A row of the `orders` table, restricted to the columns the commerce
core writes and reads. -/
structure OrderRow where
  id : Nat
  user_id : Nat
  order_number : List Char
  status : OrderStatus
  customer : CustomerData
  total_items : Nat
  total_price : ℚ
deriving DecidableEq, Repr

/-- A row of the `order_items` table (`models/order.py`). -/
structure OrderItemRow where
  order_id : Nat
  product_id : Nat
  quantity : Nat
  price_at_purchase : ℚ
  product_name : List Char
deriving DecidableEq, Repr

/-- The order-side database state: the `orders` and `order_items`
tables. -/
structure OrderStore where
  orders : List OrderRow
  order_items : List OrderItemRow
deriving DecidableEq, Repr

/-- The general cancellation error of `CRUDOrder.cancel_order`:
`f'Order with status "{order.status}" cannot be canceled. ...'`. -/
def generalCancelMsg (st : OrderStatus) : String :=
  "Order with status \"" ++ st.value ++ "\" cannot be canceled. " ++
    "Only orders with status \"created\", \"updated\", or " ++
    "\"confirmed\" can be canceled."

/-- `CRUDOrder.cancel_order` from `crud/order.py`: raise unless the
status is in `cancellable_statuses`; then the (source-order faithful)
already-canceled check; then set the status to `CANCELED`. -/
def cancel_order (o : OrderRow) : Except String OrderRow :=
  let cancellable_statuses : List OrderStatus :=
    [.created, .updated, .confirmed]
  if o.status ∉ cancellable_statuses then
    .error (generalCancelMsg o.status)
  else if o.status = .canceled then
    .error "Order is already canceled"
  else
    .ok { o with status := .canceled }

/-- Decimal representation of a `Nat` as characters (`str(n)` /
`f'{n:d}'` in Python). -/
def decimalChars (n : Nat) : List Char := Nat.toDigits 10 n

/-- `str(current_year)[-2:]` from `generate_order_number`. -/
def yearSuffix (year : Nat) : List Char :=
  let ds := decimalChars year
  ds.drop (ds.length - 2)

/-- `f'OR{year_suffix}'` — the year prefix of an order number. -/
def yearPrefix (year : Nat) : List Char := ['O', 'R'] ++ yearSuffix year

/-- `f'{n:05d}'`: the decimal representation of `n`, zero-padded on the
left to width 5 (numbers of five or more digits are printed as is). -/
def pad5 (n : Nat) : List Char :=
  if n < 100000 then
    [Nat.digitChar (n / 10000), Nat.digitChar (n / 1000 % 10),
     Nat.digitChar (n / 100 % 10), Nat.digitChar (n / 10 % 10),
     Nat.digitChar (n % 10)]
  else
    decimalChars n

/-- `int(s)` on a chunk of an order number: succeeds exactly on
non-empty all-digit strings (the only inputs the generator feeds it). -/
def parseNat (l : List Char) : Option Nat :=
  if l ≠ [] ∧ l.all (fun c => c.isDigit) then
    some (l.foldl (fun a c => a * 10 + (c.toNat - 48)) 0)
  else
    none

/-- `s[-5:]` — the last five characters. -/
def lastFive (l : List Char) : List Char := l.drop (l.length - 5)

/-- One comparison step of the lexicographic maximum below. -/
def maxLexStep (acc : Option (List Char)) (s : List Char) :
    Option (List Char) :=
  match acc with
  | none => some s
  | some m => if m < s then some s else some m

/-- The `ORDER BY order_number DESC LIMIT 1` of
`generate_order_number`: the lexicographically greatest element of the
list, if any. -/
def maxLex (l : List (List Char)) : Option (List Char) :=
  l.foldl maxLexStep none

/-- `generate_order_number(session)` from `utils/order_number.py`,
acting on the list of existing order numbers.  Returns `none` when
`int(last_order_number[-5:])` would raise (never happens on numbers the
generator itself produced). -/
def generate_order_number (year : Nat) (existing : List (List Char)) :
    Option (List Char) :=
  let yp := yearPrefix year
  let matching := existing.filter (fun s => yp.isPrefixOf s)
  match maxLex matching with
  | some last =>
      match parseNat (lastFive last) with
      | some v => some (yp ++ pad5 (v + 1))
      | none => none
  | none => some (yp ++ pad5 1)

/-- `CRUDOrder.create_from_cart(user_id, cart_items, order_data)` from
`crud/order.py`.  A cart item is passed together with its loaded
`product` relationship (the source reads `cart_item.product.name`).
Returns the created order (or the raised error) together with the
updated order store; on an error the transaction is rolled back, so the
store is returned unchanged. -/
def create_from_cart (year uid newOrderId : Nat)
    (cart_items : List (CartItem × Product)) (order_data : CustomerData)
    (store : OrderStore) : Except String OrderRow × OrderStore :=
  if cart_items = [] then
    (.error "Cannot create order from empty cart", store)
  else
    match generate_order_number year (store.orders.map (·.order_number)) with
    | none => (.error "invalid literal for int()", store)
    | some onum =>
        let total_items := (cart_items.map (fun ci => ci.1.quantity)).sum
        let total_price :=
          (cart_items.map
            (fun ci => (ci.1.quantity : ℚ) * ci.1.price_at_addition)).sum
        let order : OrderRow :=
          { id := newOrderId, user_id := uid, order_number := onum,
            status := .created, customer := order_data,
            total_items := total_items, total_price := total_price }
        let oitems := cart_items.map (fun ci =>
          ({ order_id := newOrderId, product_id := ci.1.product_id,
             quantity := ci.1.quantity,
             price_at_purchase := ci.1.price_at_addition,
             product_name := ci.2.name } : OrderItemRow))
        (.ok order,
         { orders := store.orders ++ [order],
           order_items := store.order_items ++ oitems })

/-- The `create_order` endpoint of `api/endpoints/order.py`: reject an
empty cart with HTTP 400 before calling `create_from_cart`, and clear
the cart only after a successful creation.  Returns the outcome, the
order store and the cart's item list after the call. -/
def create_order_endpoint (year uid newOrderId : Nat)
    (cart_items : List (CartItem × Product)) (order_data : CustomerData)
    (store : OrderStore) :
    Except String OrderRow × OrderStore × List (CartItem × Product) :=
  if cart_items = [] then
    (.error "Cannot create order from empty cart", store, cart_items)
  else
    match create_from_cart year uid newOrderId cart_items order_data store with
    | (.ok o, store') => (.ok o, store', [])
    | (.error e, store') => (.error e, store', cart_items)

/-- The `orders` table after `n` successive order creations (each
committed before the next number is generated), starting from the order
numbers in `store`: every step appends the number
`generate_order_number` produces; a step whose generation raises stores
nothing. -/
def ordersAfter (year : Nat) (store : List (List Char)) :
    Nat → List (List Char)
  | 0 => store
  | n + 1 =>
      let s := ordersAfter year store n
      match generate_order_number year s with
      | some num => s ++ [num]
      | none => s

/-- The order numbers produced by `n` successive creations on top of
the numbers in `store`. -/
def producedNumbers (year : Nat) (store : List (List Char)) (n : Nat) :
    List (List Char) :=
  (ordersAfter year store n).drop store.length

/-! ## Theorems -/

/-- A concrete canceled order used by closed statements. -/
def sampleCustomer : CustomerData :=
  { first_name := [], last_name := [], city := [], postal_code := [],
    address := [], phone := [], email := [], notes := none }

/-- The spec's checkout example: a cart `{A: qty 2 @ price 10.0,
B: qty 1 @ price 5.0}` (each line with its loaded product). -/
def exCartItems : List (CartItem × Product) :=
  [(⟨10, 1, 100, 2, 10⟩, ⟨100, ['A'], 10, true⟩),
   (⟨11, 1, 200, 1, 5⟩, ⟨200, ['B'], 5, true⟩)]

/-- The order `create_from_cart` builds from `exCartItems` on an empty
order store. -/
def exOrder : OrderRow :=
  { id := 1, user_id := 1,
    order_number := ['O', 'R', '2', '5', '0', '0', '0', '0', '1'],
    status := .created, customer := sampleCustomer,
    total_items := 3, total_price := 25 }

/-- The order store after creating `exOrder` from `exCartItems`. -/
def exStore' : OrderStore :=
  { orders := [exOrder],
    order_items := [⟨1, 100, 2, 10, ['A']⟩, ⟨1, 200, 1, 5, ['B']⟩] }

/-- A concrete order with status `canceled`. -/
def canceledOrder : OrderRow :=
  { id := 5, user_id := 1, order_number := ['O', 'R', '2', '5', '0', '0', '0', '0', '1'],
    status := .canceled, customer := sampleCustomer,
    total_items := 1, total_price := 1 }

/-- C6: `cancel_order` succeeds — setting the status to `canceled` —
exactly when the order's status is `created`, `updated` or `confirmed`,
and fails with an error (returning no updated order, so the stored
status is unchanged) when the status is `shipped` or `canceled`. -/
theorem cancel_order_iff_cancellable (o : OrderRow) :
    ((∃ o', cancel_order o = .ok o') ↔
      (o.status = .created ∨ o.status = .updated ∨ o.status = .confirmed)) ∧
    ((o.status = .created ∨ o.status = .updated ∨ o.status = .confirmed) →
      cancel_order o = .ok { o with status := .canceled }) ∧
    ((o.status = .shipped ∨ o.status = .canceled) →
      cancel_order o = .error (generalCancelMsg o.status)) := by
  rcases o with ⟨i, u, n, st, c, ti, tp⟩
  cases st <;> simp [cancel_order]

/-- C6 witness: the theorem applied to a concrete `confirmed` order and
to a concrete `shipped` order. -/
theorem cancel_order_iff_cancellable_witness :
    cancel_order { canceledOrder with status := .confirmed } =
      .ok { canceledOrder with status := .canceled } ∧
    cancel_order { canceledOrder with status := .shipped } =
      .error (generalCancelMsg .shipped) := by
  refine ⟨?_, ?_⟩
  · exact (cancel_order_iff_cancellable
      { canceledOrder with status := .confirmed }).2.1 (by simp [canceledOrder])
  · exact (cancel_order_iff_cancellable
      { canceledOrder with status := .shipped }).2.2 (by simp [canceledOrder])

/-- C7: on an already-canceled order, `cancel_order` raises the
*general* invalid-transition error, not the distinct
`'Order is already canceled'` one: the membership check runs first and
`canceled` is not in `cancellable_statuses`, so the dedicated
already-canceled branch is unreachable. -/
theorem cancel_canceled_gets_general_error :
    cancel_order canceledOrder = .error (generalCancelMsg .canceled) ∧
    generalCancelMsg .canceled ≠ "Order is already canceled" := by
  exact ⟨rfl, by decide⟩

/-- C2: whenever `create_from_cart` succeeds, the order's
`total_items` is the sum of the cart quantities, its `total_price` is
the sum of `quantity * price_at_addition` over the cart lines, and the
persisted order lines copy each cart line's stored price snapshot into
`price_at_purchase` (and the loaded product's name, not its price). -/
theorem create_from_cart_totals (year uid oid : Nat)
    (cart_items : List (CartItem × Product)) (cust : CustomerData)
    (store : OrderStore) (o : OrderRow) (store' : OrderStore)
    (h : create_from_cart year uid oid cart_items cust store = (.ok o, store')) :
    o.total_items = (cart_items.map (fun ci => ci.1.quantity)).sum ∧
    o.total_price =
      (cart_items.map
        (fun ci => (ci.1.quantity : ℚ) * ci.1.price_at_addition)).sum ∧
    store'.order_items = store.order_items ++ cart_items.map (fun ci =>
      ({ order_id := oid, product_id := ci.1.product_id,
         quantity := ci.1.quantity,
         price_at_purchase := ci.1.price_at_addition,
         product_name := ci.2.name } : OrderItemRow)) ∧
    store'.orders = store.orders ++ [o] := by
  unfold create_from_cart at h
  split at h
  · exact absurd h (by simp)
  · split at h
    · exact absurd h (by simp)
    · rw [Prod.mk.injEq] at h
      obtain ⟨h1, h2⟩ := h
      cases h1
      subst h2
      simp

/-- C2 witness: the spec's example — a cart `{A: qty 2 @ price 10.0,
B: qty 1 @ price 5.0}` yields `total_items = 3` and
`total_price = 25.0`, with both line prices copied from the cart. -/
theorem create_from_cart_totals_witness :
    (exOrder.total_items = 3 ∧ exOrder.total_price = 25) ∧
    exStore'.order_items =
      [⟨1, 100, 2, 10, ['A']⟩, ⟨1, 200, 1, 5, ['B']⟩] := by
  have hc : create_from_cart 2025 1 1 exCartItems sampleCustomer ⟨[], []⟩ =
      (.ok exOrder, exStore') := by
    unfold create_from_cart
    rw [if_neg (by decide)]
    rw [show generate_order_number 2025
        (((⟨[], []⟩ : OrderStore)).orders.map (·.order_number)) =
        some ['O', 'R', '2', '5', '0', '0', '0', '0', '1'] from by decide]
    simp [exCartItems, exOrder, exStore', sampleCustomer]
    norm_num
  have h := create_from_cart_totals 2025 1 1 exCartItems sampleCustomer
    ⟨[], []⟩ exOrder exStore' hc
  refine ⟨⟨h.1.trans (by decide), h.2.1.trans ?_⟩,
    h.2.2.1.trans (by simp [exCartItems])⟩
  simp [exCartItems]
  norm_num

/-- C8: order creation from an empty cart fails with the
empty-container error before anything is persisted: both the crud
function and the endpoint return the error, the order store is
unchanged (no order number is consumed), and the cart keeps its items. -/
theorem empty_cart_checkout_fails (year uid oid : Nat)
    (cart_items : List (CartItem × Product)) (cust : CustomerData)
    (store : OrderStore) (h : cart_items = []) :
    create_from_cart year uid oid cart_items cust store =
      (.error "Cannot create order from empty cart", store) ∧
    create_order_endpoint year uid oid cart_items cust store =
      (.error "Cannot create order from empty cart", store, cart_items) := by
  subst h
  exact ⟨by simp [create_from_cart], by simp [create_order_endpoint]⟩

/-- C8 witness: the theorem at a concrete store and empty cart. -/
theorem empty_cart_checkout_fails_witness :
    create_from_cart 2025 1 1 [] sampleCustomer ⟨[], []⟩ =
      (.error "Cannot create order from empty cart", (⟨[], []⟩ : OrderStore)) ∧
    create_order_endpoint 2025 1 1 [] sampleCustomer ⟨[], []⟩ =
      (.error "Cannot create order from empty cart", (⟨[], []⟩ : OrderStore), []) :=
  empty_cart_checkout_fails 2025 1 1 [] sampleCustomer ⟨[], []⟩ rfl

/-- C9 counterexample: `get_or_create_for_session` happily returns a
cart whose `expires_at` has already passed — `get_by_session` puts no
expiry condition in its query.  Here the stored cart expired 5 seconds
before `now = 0`, yet it is returned unchanged instead of a fresh one. -/
theorem get_or_create_returns_expired_cart :
    ((get_or_create_for_session 7 0 99 [⟨1, some 7, none, -5⟩]).1 =
      ⟨1, some 7, none, -5⟩) ∧
    (get_or_create_for_session 7 0 99 [⟨1, some 7, none, -5⟩]).1.expires_at < 0 := by
  decide

/-- C9 (amended): `get_or_create_for_session` returns the existing cart
for the session — regardless of whether its `expires_at` has passed —
or, when none exists, inserts a fresh cart scoped to the session with
`expires_at = now + CART_SESSION_LIFETIME_DAYS`; it always succeeds. -/
theorem get_or_create_for_session_spec (sid : Nat) (now : Int)
    (newId : Nat) (carts : List CartRow) :
    (∃ c, get_by_session sid carts = some c ∧
      get_or_create_for_session sid now newId carts = (c, carts)) ∨
    (get_by_session sid carts = none ∧
      get_or_create_for_session sid now newId carts =
        (⟨newId, some sid, none,
          now + (CART_SESSION_LIFETIME_DAYS * SECONDS_PER_DAY : Nat)⟩,
         carts ++ [⟨newId, some sid, none,
          now + (CART_SESSION_LIFETIME_DAYS * SECONDS_PER_DAY : Nat)⟩])) := by
  cases h : get_by_session sid carts with
  | some c => exact .inl ⟨c, rfl, by simp [get_or_create_for_session, h]⟩
  | none => exact .inr ⟨rfl, by simp [get_or_create_for_session, h]⟩

/-- Folding `maxLexStep` only ever answers the accumulator or a list
element. -/
lemma foldl_maxLexStep_mem (l : List (List Char)) :
    ∀ (acc : Option (List Char)) (m : List Char),
      l.foldl maxLexStep acc = some m → acc = some m ∨ m ∈ l := by
  induction l with
  | nil => intro acc m h; exact .inl h
  | cons x r ih =>
    intro acc m h
    rcases ih _ _ h with h' | h'
    · cases acc with
      | none =>
          simp only [maxLexStep] at h'
          cases h'
          exact .inr (List.mem_cons_self x r)
      | some a =>
          simp only [maxLexStep] at h'
          split at h'
          · cases h'; exact .inr (List.mem_cons_self x r)
          · exact .inl h'
    · exact .inr (List.mem_cons_of_mem x h')

/-- Folding `maxLexStep` dominates the accumulator and every list
element. -/
lemma foldl_maxLexStep_ge (l : List (List Char)) :
    ∀ (acc : Option (List Char)) (m : List Char),
      l.foldl maxLexStep acc = some m →
      (∀ a, acc = some a → a ≤ m) ∧ ∀ x ∈ l, x ≤ m := by
  induction l with
  | nil =>
    intro acc m h
    refine ⟨fun a ha => ?_, by simp⟩
    rw [List.foldl_nil] at h
    rw [h] at ha
    cases ha
    exact le_refl m
  | cons x r ih =>
    intro acc m h
    rw [List.foldl_cons] at h
    obtain ⟨h1, h2⟩ := ih _ _ h
    have hx : x ≤ m := by
      cases acc with
      | none => exact h1 x rfl
      | some a =>
          by_cases hax : a < x
          · exact h1 x (by simp [maxLexStep, hax])
          · exact le_trans (not_lt.mp hax) (h1 a (by simp [maxLexStep, hax]))
    refine ⟨fun a ha => ?_, fun y hy => ?_⟩
    · subst ha
      by_cases hax : a < x
      · exact le_trans (le_of_lt hax) hx
      · exact h1 a (by simp [maxLexStep, hax])
    · rcases List.mem_cons.mp hy with rfl | hy'
      · exact hx
      · exact h2 y hy'

/-- `maxLex` really is the lexicographically greatest element. -/
lemma maxLex_spec {l : List (List Char)} {m : List Char}
    (h : maxLex l = some m) : m ∈ l ∧ ∀ x ∈ l, x ≤ m := by
  rcases foldl_maxLexStep_mem l none m h with h' | h'
  · cases h'
  · exact ⟨h', (foldl_maxLexStep_ge l none m h).2⟩

/-- C3: `generate_order_number` queries the lexicographically greatest
existing order number whose prefix matches the current year; if none
exists the sequence starts at `00001`; otherwise it parses the last
five characters as a number and returns the year prefix followed by
that value plus one, formatted by the 5-digit zero-padding. -/
theorem generate_order_number_algorithm (year : Nat)
    (existing : List (List Char)) :
    (existing.filter (fun s => (yearPrefix year).isPrefixOf s) = [] →
      generate_order_number year existing =
        some (yearPrefix year ++ ['0', '0', '0', '0', '1'])) ∧
    (∀ m, maxLex (existing.filter (fun s => (yearPrefix year).isPrefixOf s)) =
        some m →
      m ∈ existing.filter (fun s => (yearPrefix year).isPrefixOf s) ∧
      (∀ x ∈ existing.filter (fun s => (yearPrefix year).isPrefixOf s), x ≤ m) ∧
      ∀ v, parseNat (lastFive m) = some v →
        generate_order_number year existing =
          some (yearPrefix year ++ pad5 (v + 1))) := by
  constructor
  · intro h
    unfold generate_order_number
    dsimp only
    rw [h]
    rfl
  · intro m hm
    refine ⟨(maxLex_spec hm).1, (maxLex_spec hm).2, fun v hv => ?_⟩
    unfold generate_order_number
    dsimp only
    rw [hm]
    dsimp only
    rw [hv]

/-- C3 witness: on the store `{OR2500007, XX999}` for year 2025 the
greatest matching number is `OR2500007`, whose suffix 7 is incremented
to give `OR2500008`; on a store with no number for the year the
sequence starts at `OR2500001`. -/
theorem generate_order_number_algorithm_witness :
    generate_order_number 2025
      [['O','R','2','5','0','0','0','0','7'], ['X','X','9','9','9']] =
      some ['O','R','2','5','0','0','0','0','8'] ∧
    generate_order_number 2025 [['X','X','9','9','9']] =
      some ['O','R','2','5','0','0','0','0','1'] := by
  constructor
  · have h := (generate_order_number_algorithm 2025
      [['O','R','2','5','0','0','0','0','7'], ['X','X','9','9','9']]).2
      ['O','R','2','5','0','0','0','0','7'] (by decide)
    exact (h.2.2 7 (by decide)).trans (by decide)
  · have h := (generate_order_number_algorithm 2025
      [['X','X','9','9','9']]).1 (by decide)
    exact h.trans (by decide)

/-- The lines of cart `cid` for product `pid`: the invariant
`uq_cart_product` of `models/cart.py` says there is at most one. -/
def linesFor (cid pid : Nat) (l : List CartItem) : List CartItem :=
  l.filter (fun it => it.cart_id == cid && it.product_id == pid)

/-- The first-row query of `add_item`/`merge_carts` is the head of the
lines for that cart and product. -/
lemma findItem_eq_head (cid pid : Nat) (l : List CartItem) :
    findItem cid pid l = (linesFor cid pid l).head? := by
  induction l with
  | nil => rfl
  | cons x r ih =>
    by_cases h : (x.cart_id == cid && x.product_id == pid) = true
    · simp [findItem, linesFor, List.find?_cons, h]
    · simp [findItem, linesFor, List.find?_cons, h]

/-- `setQuantity` commutes with `linesFor`: changing a quantity moves
no line between carts or products. -/
lemma linesFor_setQuantity (cid pid iid q : Nat) (l : List CartItem) :
    linesFor cid pid (setQuantity iid q l) =
      setQuantity iid q (linesFor cid pid l) := by
  unfold linesFor setQuantity
  rw [List.filter_map]
  congr 1
  apply List.filter_congr
  intro x _
  by_cases h : x.id = iid <;> simp [h]

/-- C5: when the product is active, `add_item` on a cart already
holding exactly one line for it leaves exactly one line — never two —
whose quantity is the old one plus the added one, clamped to
`MAX_CART_ITEM_QUANTITY`, with the stored `price_at_addition` snapshot
untouched; on a cart without the product it inserts a single new line
whose `price_at_addition` is the product's current price. -/
theorem add_item_spec (cid pid qty : Nat) (ps : List Product)
    (items : List CartItem) (newId : Nat) (p : Product)
    (hp : findActiveProduct pid ps = some p) :
    (∀ e, linesFor cid pid items = [e] →
      add_item cid pid qty ps items newId =
        .ok ({ e with quantity := clampQty (e.quantity + qty) },
             setQuantity e.id (clampQty (e.quantity + qty)) items) ∧
      linesFor cid pid
          (setQuantity e.id (clampQty (e.quantity + qty)) items) =
        [{ e with quantity := clampQty (e.quantity + qty) }]) ∧
    (linesFor cid pid items = [] →
      add_item cid pid qty ps items newId =
        .ok (⟨newId, cid, pid, qty, p.price⟩,
             items ++ [⟨newId, cid, pid, qty, p.price⟩]) ∧
      linesFor cid pid (items ++ [⟨newId, cid, pid, qty, p.price⟩]) =
        [⟨newId, cid, pid, qty, p.price⟩]) := by
  constructor
  · intro e he
    have hf : findItem cid pid items = some e := by
      rw [findItem_eq_head, he]; rfl
    constructor
    · unfold add_item
      rw [hp, hf]
    · rw [linesFor_setQuantity, he]
      simp [setQuantity]
  · intro he
    have hf : findItem cid pid items = none := by
      rw [findItem_eq_head, he]; rfl
    constructor
    · unfold add_item
      rw [hp, hf]
    · unfold linesFor
      rw [List.filter_append, ← linesFor, he]
      simp

/-- C5 witness: adding 3 more units of product 100 to a cart already
holding 998 of them clamps to 999 and keeps the stored snapshot 7;
adding it to an empty cart inserts one line priced at the product's
current price 5. -/
theorem add_item_spec_witness :
    (add_item 1 100 3 [⟨100, ['p'], 5, true⟩] [⟨10, 1, 100, 998, 7⟩] 99 =
      .ok (⟨10, 1, 100, 999, 7⟩, [⟨10, 1, 100, 999, 7⟩]) ∧
     linesFor 1 100 [⟨10, 1, 100, 999, 7⟩] = [⟨10, 1, 100, 999, 7⟩]) ∧
    (add_item 1 100 3 [⟨100, ['p'], 5, true⟩] [] 99 =
      .ok (⟨99, 1, 100, 3, 5⟩, [⟨99, 1, 100, 3, 5⟩]) ∧
     linesFor 1 100 [⟨99, 1, 100, 3, 5⟩] = [⟨99, 1, 100, 3, 5⟩]) := by
  constructor
  · have h := ((add_item_spec 1 100 3 [⟨100, ['p'], 5, true⟩]
      [⟨10, 1, 100, 998, 7⟩] 99 ⟨100, ['p'], 5, true⟩ rfl).1
      ⟨10, 1, 100, 998, 7⟩ rfl)
    exact ⟨h.1.trans (by rfl), h.2.trans (by rfl)⟩
  · have h := ((add_item_spec 1 100 3 [⟨100, ['p'], 5, true⟩]
      [] 99 ⟨100, ['p'], 5, true⟩ rfl).2 rfl)
    exact ⟨h.1.trans (by rfl), h.2.trans (by rfl)⟩

/-- C1: merging an anonymous cart holding `{A:2, B:1}` into an account
cart holding `{A:1}` (distinct products, carts and row ids) leaves the
database with the account cart only — the anonymous cart is gone — and
its lines are exactly `{B:1, A:3}`: the shared product's quantities are
summed (3 ≤ `MAX_CART_ITEM_QUANTITY`, so the clamp is inactive) on the
account line, and the B line is moved over. -/
theorem merge_carts_example (A B sc uc i1 i2 i3 : Nat) (pA pB pA' : ℚ)
    (hAB : A ≠ B) (hsc : sc ≠ uc)
    (h12 : i1 ≠ i2) (h13 : i1 ≠ i3) (h23 : i2 ≠ i3) :
    merge_carts sc uc
      ⟨[sc, uc],
       [⟨i1, sc, A, 2, pA⟩, ⟨i2, sc, B, 1, pB⟩, ⟨i3, uc, A, 1, pA'⟩]⟩ =
      ⟨[uc], [⟨i2, uc, B, 1, pB⟩, ⟨i3, uc, A, 3, pA'⟩]⟩ := by
  simp [merge_carts, itemsOf, mergeStep, findItem, setQuantity, setCartId,
    deleteItem, deleteCartCascade, clampQty, MAX_CART_ITEM_QUANTITY,
    List.find?_cons, hAB, hsc, h12, h13, h23,
    Ne.symm hAB, Ne.symm hsc, Ne.symm h12, Ne.symm h13, Ne.symm h23]

/-- C1 witness: the merge at concrete products 100/200, carts 1/2, row
ids 10/11/12 and prices 7/8/9. -/
theorem merge_carts_example_witness :
    merge_carts 1 2
      ⟨[1, 2],
       [⟨10, 1, 100, 2, 7⟩, ⟨11, 1, 200, 1, 8⟩, ⟨12, 2, 100, 1, 9⟩]⟩ =
      ⟨[2], [⟨11, 2, 200, 1, 8⟩, ⟨12, 2, 100, 3, 9⟩]⟩ :=
  merge_carts_example 100 200 1 2 10 11 12 7 8 9
    (by decide) (by decide) (by decide) (by decide) (by decide)

/-- One merge-loop step leaves a row alone when the processed session
line has a different id and a different product: the row survives
unchanged and stays the unique row with its id. -/
lemma mergeStep_keep (ucid : Nat) (items : List CartItem) (si r : CartItem)
    (hr : r ∈ items) (hu : ∀ x ∈ items, x.id = r.id → x = r)
    (hid : si.id ≠ r.id) (hprod : si.product_id ≠ r.product_id) :
    r ∈ mergeStep ucid items si ∧
      ∀ x ∈ mergeStep ucid items si, x.id = r.id → x = r := by
  unfold mergeStep
  cases hf : findItem ucid si.product_id items with
  | none =>
      unfold setCartId
      refine ⟨List.mem_map.mpr ⟨r, hr, by rw [if_neg (Ne.symm hid)]⟩, ?_⟩
      intro x hx hxid
      rcases List.mem_map.mp hx with ⟨y, hy, hfy⟩
      by_cases hyid : y.id = si.id
      · rw [if_pos hyid] at hfy
        subst hfy
        exact absurd (hyid ▸ hxid) hid
      · rw [if_neg hyid] at hfy
        subst hfy
        exact hu y hy hxid
  | some u =>
      have hu_mem : u ∈ items := List.mem_of_find?_eq_some hf
      have hpred := List.find?_some hf
      rw [Bool.and_eq_true, beq_iff_eq, beq_iff_eq] at hpred
      have huid : u.id ≠ r.id := by
        intro h
        have heq : u = r := hu u hu_mem h
        rw [← heq] at hprod
        exact hprod hpred.2.symm
      unfold deleteItem setQuantity
      refine ⟨?_, ?_⟩
      · refine List.mem_filter.mpr
          ⟨List.mem_map.mpr ⟨r, hr, by rw [if_neg (Ne.symm huid)]⟩, ?_⟩
        simp [Ne.symm hid]
      · intro x hx hxid
        rcases List.mem_map.mp (List.mem_filter.mp hx).1 with ⟨y, hy, hfy⟩
        by_cases hyid : y.id = u.id
        · rw [if_pos hyid] at hfy
          subst hfy
          exact absurd (hyid ▸ hxid) huid
        · rw [if_neg hyid] at hfy
          subst hfy
          exact hu y hy hxid

/-- The whole merge loop leaves a row alone when every processed session
line has a different id and a different product. -/
lemma fold_keep (ucid : Nat) (l : List CartItem) :
    ∀ (items : List CartItem) (r : CartItem), r ∈ items →
      (∀ x ∈ items, x.id = r.id → x = r) →
      (∀ si ∈ l, si.id ≠ r.id ∧ si.product_id ≠ r.product_id) →
      r ∈ l.foldl (mergeStep ucid) items ∧
        ∀ x ∈ l.foldl (mergeStep ucid) items, x.id = r.id → x = r := by
  induction l with
  | nil => intro items r hr hu _; exact ⟨hr, hu⟩
  | cons si rest ih =>
      intro items r hr hu hl
      rw [List.foldl_cons]
      obtain ⟨h1, h2⟩ := mergeStep_keep ucid items si r hr hu
        (hl si (List.mem_cons_self si rest)).1
        (hl si (List.mem_cons_self si rest)).2
      exact ih _ r h1 h2 (fun sj hj => hl sj (List.mem_cons_of_mem si hj))

/-- One merge-loop step cannot introduce a product into the user cart
other than the product of the session line it processes. -/
lemma mergeStep_no_new_product (ucid : Nat) (items : List CartItem)
    (si : CartItem) (P : Nat)
    (habs : ∀ u ∈ items, u.cart_id = ucid → u.product_id ≠ P)
    (hsp : si.product_id ≠ P)
    (hself : ∀ x ∈ items, x.id = si.id → x = si) :
    ∀ u ∈ mergeStep ucid items si, u.cart_id = ucid → u.product_id ≠ P := by
  unfold mergeStep
  cases hf : findItem ucid si.product_id items with
  | none =>
      unfold setCartId
      intro x hx hxc
      rcases List.mem_map.mp hx with ⟨y, hy, hfy⟩
      by_cases hyid : y.id = si.id
      · rw [if_pos hyid] at hfy
        subst hfy
        have : y = si := hself y hy hyid
        exact this ▸ hsp
      · rw [if_neg hyid] at hfy
        subst hfy
        exact habs y hy hxc
  | some u0 =>
      unfold deleteItem setQuantity
      intro x hx hxc
      rcases List.mem_map.mp (List.mem_filter.mp hx).1 with ⟨y, hy, hfy⟩
      by_cases hyid : y.id = u0.id
      · rw [if_pos hyid] at hfy
        subst hfy
        exact habs y hy hxc
      · rw [if_neg hyid] at hfy
        subst hfy
        exact habs y hy hxc

/-- Running the merge loop over a list of session lines that contains
`t`, whose product the user cart does not hold: `t` ends up in the fold
result with only its `cart_id` rewritten to the user cart, and it is
still the only row with its id. -/
lemma fold_moves_target (ucid scid : Nat) (l : List CartItem) :
    ∀ (items : List CartItem) (t : CartItem), t ∈ l →
      (∀ si ∈ l, si.cart_id = scid) →
      List.Pairwise (fun a b => a.id ≠ b.id) l →
      List.Pairwise (fun a b => a.product_id ≠ b.product_id) l →
      (∀ si ∈ l, si ∈ items ∧ ∀ x ∈ items, x.id = si.id → x = si) →
      (∀ u ∈ items, u.cart_id = ucid → u.product_id ≠ t.product_id) →
      { t with cart_id := ucid } ∈ l.foldl (mergeStep ucid) items ∧
        ∀ x ∈ l.foldl (mergeStep ucid) items, x.id = t.id →
          x = { t with cart_id := ucid } := by
  induction l with
  | nil => intro items t ht; cases ht
  | cons si rest ih =>
      intro items t ht hcart hpid hpprod htouch habs
      rw [List.foldl_cons]
      have hsi_mem := htouch si (List.mem_cons_self si rest)
      rcases List.mem_cons.mp ht with rfl | htr
      · -- the head is the target line: its product is not in the user
        -- cart, so the step is the `cart_id` move
        have hfind : findItem ucid t.product_id items = none := by
          apply List.find?_eq_none.mpr
          intro x hx
          rw [Bool.not_eq_true, Bool.and_eq_false_iff]
          by_cases hxc : x.cart_id = ucid
          · exact .inr (by simp [habs x hx hxc])
          · exact .inl (by simp [hxc])
        have hstep : mergeStep ucid items t = setCartId t.id ucid items := by
          unfold mergeStep
          rw [hfind]
        rw [hstep]
        have hmem : { t with cart_id := ucid } ∈ setCartId t.id ucid items := by
          unfold setCartId
          exact List.mem_map.mpr ⟨t, hsi_mem.1, by rw [if_pos rfl]⟩
        have huniq : ∀ x ∈ setCartId t.id ucid items, x.id = t.id →
            x = { t with cart_id := ucid } := by
          unfold setCartId
          intro x hx hxid
          rcases List.mem_map.mp hx with ⟨y, hy, hfy⟩
          by_cases hyid : y.id = t.id
          · rw [if_pos hyid] at hfy
            subst hfy
            rw [hsi_mem.2 y hy hyid]
          · rw [if_neg hyid] at hfy
            subst hfy
            exact absurd hxid hyid
        have hrest := (List.pairwise_cons.mp hpid).1
        have hrestp := (List.pairwise_cons.mp hpprod).1
        exact fold_keep ucid rest _ _ hmem huniq
          (fun sj hj => ⟨(hrest sj hj).symm, (hrestp sj hj).symm⟩)
      · -- the head is some other session line: it neither touches the
        -- target's record nor puts the target's product into the user
        -- cart, and the induction hypothesis applies
        have hsit : si.id ≠ t.id := (List.pairwise_cons.mp hpid).1 t htr
        have hsitp : si.product_id ≠ t.product_id :=
          (List.pairwise_cons.mp hpprod).1 t htr
        apply ih _ t htr
          (fun sj hj => hcart sj (List.mem_cons_of_mem si hj))
          (List.pairwise_cons.mp hpid).2 (List.pairwise_cons.mp hpprod).2
        · intro sj hj
          have hj' := htouch sj (List.mem_cons_of_mem si hj)
          have hsij : si.id ≠ sj.id := (List.pairwise_cons.mp hpid).1 sj hj
          have hsijp : si.product_id ≠ sj.product_id :=
            (List.pairwise_cons.mp hpprod).1 sj hj
          exact mergeStep_keep ucid items si sj hj'.1 hj'.2 hsij hsijp
        · exact mergeStep_no_new_product ucid items si t.product_id habs
            hsitp hsi_mem.2

/-- C10: under the schema invariants (unique row ids, at most one line
per cart and product) any anonymous-cart line whose product the account
cart does not hold is moved by `merge_carts` by rewriting only its
`cart_id`: the resulting table holds its row with the account cart as
owner and the quantity and `price_at_addition` snapshot untouched, and
that row is still the only one with its id. -/
theorem merge_moves_unshared_line (s : MergeState) (scid ucid : Nat)
    (t : CartItem)
    (hids : (s.items.map (fun it => it.id)).Nodup)
    (huniq : ∀ a ∈ s.items, ∀ b ∈ s.items,
      a.cart_id = b.cart_id → a.product_id = b.product_id → a = b)
    (hne : scid ≠ ucid)
    (ht : t ∈ s.items) (htc : t.cart_id = scid)
    (habs : ∀ u ∈ s.items, u.cart_id = ucid → u.product_id ≠ t.product_id) :
    { t with cart_id := ucid } ∈ (merge_carts scid ucid s).items ∧
      ∀ x ∈ (merge_carts scid ucid s).items, x.id = t.id →
        x = { t with cart_id := ucid } := by
  set sess := itemsOf scid s.items with hsess
  have hmem_sess : ∀ x ∈ sess, x ∈ s.items ∧ x.cart_id = scid := by
    intro x hx
    rw [hsess] at hx
    unfold itemsOf at hx
    have h := List.mem_filter.mp hx
    exact ⟨h.1, by simpa using h.2⟩
  have hts : t ∈ sess := by
    rw [hsess]
    unfold itemsOf
    exact List.mem_filter.mpr ⟨ht, by simp [htc]⟩
  have hsub : sess.Sublist s.items := by
    rw [hsess]
    exact List.filter_sublist _
  have hsessids : (sess.map (fun it => it.id)).Nodup :=
    (hsub.map _).nodup hids
  have hpid : List.Pairwise (fun a b : CartItem => a.id ≠ b.id) sess :=
    List.pairwise_map.mp hsessids
  have hpprod :
      List.Pairwise (fun a b : CartItem => a.product_id ≠ b.product_id)
        sess := by
    refine List.Pairwise.imp_of_mem ?_ hpid
    intro a b ha hb hab hpe
    exact hab (congrArg CartItem.id
      (huniq a (hmem_sess a ha).1 b (hmem_sess b hb).1
        ((hmem_sess a ha).2.trans (hmem_sess b hb).2.symm) hpe))
  have htouch : ∀ si ∈ sess,
      si ∈ s.items ∧ ∀ x ∈ s.items, x.id = si.id → x = si := by
    intro si hsi
    exact ⟨(hmem_sess si hsi).1, fun x hx hxe =>
      List.inj_on_of_nodup_map hids hx (hmem_sess si hsi).1 hxe⟩
  have hfold := fold_moves_target ucid scid sess s.items t hts
    (fun si hsi => (hmem_sess si hsi).2) hpid hpprod htouch habs
  have hsess_ne : sess ≠ [] := List.ne_nil_of_mem hts
  unfold merge_carts
  dsimp only
  rw [← hsess, if_neg hsess_ne]
  by_cases hemp : itemsOf scid (sess.foldl (mergeStep ucid) s.items) = []
  · rw [if_pos hemp]
    unfold deleteCartCascade
    dsimp only
    constructor
    · exact List.mem_filter.mpr ⟨hfold.1, by simp [Ne.symm hne]⟩
    · intro x hx hxid
      exact hfold.2 x (List.mem_filter.mp hx).1 hxid
  · rw [if_neg hemp]
    exact hfold

/-- C10 witness: a line of the anonymous cart 1 for product 100, which
the account cart 2 does not hold, appears after the merge with
`cart_id = 2` and its quantity 2 and price snapshot 7 intact. -/
theorem merge_moves_unshared_line_witness :
    (⟨10, 2, 100, 2, 7⟩ : CartItem) ∈
      (merge_carts 1 2
        ⟨[1, 2], [⟨10, 1, 100, 2, 7⟩, ⟨12, 2, 200, 1, 9⟩]⟩).items :=
  (merge_moves_unshared_line
    ⟨[1, 2], [⟨10, 1, 100, 2, 7⟩, ⟨12, 2, 200, 1, 9⟩]⟩ 1 2
    ⟨10, 1, 100, 2, 7⟩
    (by decide)
    (by
      intro a ha b hb hc hp
      fin_cases ha <;> fin_cases hb <;>
        first
        | rfl
        | (exfalso; revert hc hp; decide))
    (by decide)
    (List.mem_cons_self _ _)
    rfl
    (by decide)).1

/-- Decimal digit characters are ordered like their digits. -/
lemma digitChar_lt :
    ∀ x < 10, ∀ y < 10, x < y → Nat.digitChar x < Nat.digitChar y := by
  decide

/-- Decimal digit characters satisfy `Char.isDigit`. -/
lemma digitChar_isDigit : ∀ d < 10, (Nat.digitChar d).isDigit = true := by
  decide

/-- Code point of a decimal digit character. -/
lemma digitChar_toNat : ∀ d < 10, (Nat.digitChar d).toNat = 48 + d := by
  decide

/-- Appending on the left preserves the lexicographic order. -/
lemma append_lt_append_left (p : List Char) {a b : List Char}
    (h : a < b) : p ++ a < p ++ b := by
  induction p with
  | nil => exact h
  | cons c cs ih => exact List.Lex.cons ih

/-- On numbers that fit the 5-digit field, zero-padding to width 5 is
strictly monotone for the lexicographic order. -/
lemma pad5_lt {a b : Nat} (hab : a < b) (hb : b < 100000) :
    pad5 a < pad5 b := by
  have ha : a < 100000 := lt_trans hab hb
  unfold pad5
  rw [if_pos ha, if_pos hb]
  rcases Nat.lt_trichotomy (a / 10000) (b / 10000) with h4 | h4 | h4
  · exact List.Lex.rel (digitChar_lt _ (by omega) _ (by omega) h4)
  · rw [h4]
    apply List.Lex.cons
    rcases Nat.lt_trichotomy (a / 1000 % 10) (b / 1000 % 10) with h3 | h3 | h3
    · exact List.Lex.rel (digitChar_lt _ (by omega) _ (by omega) h3)
    · rw [h3]
      apply List.Lex.cons
      rcases Nat.lt_trichotomy (a / 100 % 10) (b / 100 % 10) with h2 | h2 | h2
      · exact List.Lex.rel (digitChar_lt _ (by omega) _ (by omega) h2)
      · rw [h2]
        apply List.Lex.cons
        rcases Nat.lt_trichotomy (a / 10 % 10) (b / 10 % 10) with h1 | h1 | h1
        · exact List.Lex.rel (digitChar_lt _ (by omega) _ (by omega) h1)
        · rw [h1]
          apply List.Lex.cons
          exact List.Lex.rel
            (digitChar_lt _ (by omega) _ (by omega) (by omega))
        · exact absurd h1 (by omega)
      · exact absurd h2 (by omega)
    · exact absurd h3 (by omega)
  · exact absurd h4 (by omega)

/-- Width of the padded field while it does not overflow. -/
lemma pad5_length {k : Nat} (hk : k < 100000) : (pad5 k).length = 5 := by
  unfold pad5
  rw [if_pos hk]
  rfl

/-- `s[-5:]` of `prefix ++ pad5 k` recovers exactly the padded field
while it does not overflow. -/
lemma lastFive_append_pad5 (p : List Char) {k : Nat} (hk : k < 100000) :
    lastFive (p ++ pad5 k) = pad5 k := by
  unfold lastFive
  rw [List.length_append, pad5_length hk, Nat.add_sub_cancel,
    List.drop_left]

/-- `int` undoes the 5-digit zero-padding. -/
lemma parseNat_pad5 {k : Nat} (hk : k < 100000) :
    parseNat (pad5 k) = some k := by
  have h4 : k / 10000 < 10 := by omega
  have h3 : k / 1000 % 10 < 10 := by omega
  have h2 : k / 100 % 10 < 10 := by omega
  have h1 : k / 10 % 10 < 10 := by omega
  have h0 : k % 10 < 10 := by omega
  unfold pad5
  rw [if_pos hk]
  unfold parseNat
  split
  case isTrue hcond =>
    simp only [List.foldl_cons, List.foldl_nil, digitChar_toNat _ h4,
      digitChar_toNat _ h3, digitChar_toNat _ h2, digitChar_toNat _ h1,
      digitChar_toNat _ h0]
    congr 1
    omega
  case isFalse hcond =>
    exfalso
    apply hcond
    refine ⟨by simp, ?_⟩
    simp [digitChar_isDigit _ h4, digitChar_isDigit _ h3,
      digitChar_isDigit _ h2, digitChar_isDigit _ h1,
      digitChar_isDigit _ h0]

/-- A list is a prefix of itself extended. -/
lemma isPrefixOf_append (p l : List Char) :
    p.isPrefixOf (p ++ l) = true :=
  List.isPrefixOf_iff_prefix.mpr (List.prefix_append p l)

/-- The lexicographic maximum of a list extended by a strict upper
bound is that bound. -/
lemma maxLex_append (l : List (List Char)) (m : List Char)
    (h : ∀ x ∈ l, x < m) : maxLex (l ++ [m]) = some m := by
  unfold maxLex
  rw [List.foldl_append]
  cases hf : l.foldl maxLexStep none with
  | none => rfl
  | some v =>
      have hv : v ∈ l := by
        rcases foldl_maxLexStep_mem l none v hf with h' | h'
        · cases h'
        · exact h'
      simp [maxLexStep, h v hv]

/-- Closed form of the order-number store after `n` successive
creations on a store with no number for the year: the sequence walks
`1, 2, …, n` while it stays within the 5-digit field. -/
lemma ordersAfter_closed (year : Nat) (S : List (List Char))
    (hS : S.filter (fun s => (yearPrefix year).isPrefixOf s) = [])
    (n : Nat) : n ≤ 99999 →
    ordersAfter year S n =
      S ++ (List.range n).map (fun i => yearPrefix year ++ pad5 (i + 1)) := by
  induction n with
  | zero => intro _; simp [ordersAfter]
  | succ k ih =>
      intro hk
      have ihk := ih (Nat.le_of_succ_le hk)
      have hmatch :
          (S ++ (List.range k).map
              (fun i => yearPrefix year ++ pad5 (i + 1))).filter
            (fun s => (yearPrefix year).isPrefixOf s) =
          (List.range k).map (fun i => yearPrefix year ++ pad5 (i + 1)) := by
        rw [List.filter_append, hS, List.nil_append]
        apply List.filter_eq_self.mpr
        intro x hx
        rcases List.mem_map.mp hx with ⟨i, _, rfl⟩
        exact isPrefixOf_append _ _
      have hgen : generate_order_number year
          (S ++ (List.range k).map (fun i => yearPrefix year ++ pad5 (i + 1))) =
          some (yearPrefix year ++ pad5 (k + 1)) := by
        unfold generate_order_number
        dsimp only
        rw [hmatch]
        cases k with
        | zero => rfl
        | succ j =>
            rw [List.range_succ, List.map_append, List.map_cons,
              List.map_nil]
            rw [maxLex_append _ _ ?hlt]
            case hlt =>
              intro x hx
              rcases List.mem_map.mp hx with ⟨i, hi, rfl⟩
              have hij : i < j := List.mem_range.mp hi
              exact append_lt_append_left _
                (pad5_lt (by omega) (by omega))
            dsimp only
            rw [lastFive_append_pad5 _ (by omega), parseNat_pad5 (by omega)]
      simp only [ordersAfter]
      rw [ihk, hgen]
      simp [List.range_succ, List.append_assoc]

/-- C4 counterexample: two successive order creations, each committed
before the next number is generated, after the 99999th order of year
2025: both produce `OR25100000`, because once the padded field
overflows its width the lexicographic maximum keeps finding
`OR2599999` — digit `9` beats `1` — and re-increments it.  The numbers
produced by the sequence are neither pairwise unique nor strictly
increasing. -/
theorem order_numbers_duplicate_counterexample :
    producedNumbers 2025 [['O','R','2','5','9','9','9','9','9']] 2 =
      [['O','R','2','5','1','0','0','0','0','0'],
       ['O','R','2','5','1','0','0','0','0','0']] ∧
    ¬ (producedNumbers 2025 [['O','R','2','5','9','9','9','9','9']] 2).Nodup ∧
    ¬ List.Pairwise (fun a b : List Char => a < b)
      (producedNumbers 2025 [['O','R','2','5','9','9','9','9','9']] 2) := by
  decide

/-- C4 (amended): starting from a store holding no order number for the
current year, any run of `n ≤ 99999` successive order creations — each
committed before the next number is generated — produces exactly
`prefix ++ 00001 … prefix ++ pad5 n`, a strictly increasing and hence
pairwise-unique list; the restriction to the 5-digit capacity is
forced, as the counterexample shows the very next number repeats. -/
theorem produced_numbers_strictly_increasing (year : Nat)
    (S : List (List Char))
    (hS : S.filter (fun s => (yearPrefix year).isPrefixOf s) = [])
    (n : Nat) (hn : n ≤ 99999) :
    producedNumbers year S n =
      (List.range n).map (fun i => yearPrefix year ++ pad5 (i + 1)) ∧
    List.Pairwise (fun a b : List Char => a < b)
      (producedNumbers year S n) ∧
    (producedNumbers year S n).Nodup := by
  have hclosed := ordersAfter_closed year S hS n hn
  have heq : producedNumbers year S n =
      (List.range n).map (fun i => yearPrefix year ++ pad5 (i + 1)) := by
    unfold producedNumbers
    rw [hclosed, List.drop_left]
  have hpw : List.Pairwise (fun a b : List Char => a < b)
      (producedNumbers year S n) := by
    rw [heq]
    apply List.pairwise_map.mpr
    refine List.Pairwise.imp_of_mem ?_ (List.pairwise_lt_range n)
    intro i j hi hj hij
    have hjn : j < n := List.mem_range.mp hj
    exact append_lt_append_left _ (pad5_lt (by omega) (by omega))
  exact ⟨heq, hpw, hpw.imp ne_of_lt⟩

/-- C4 witness: three creations from an empty store for 2025 give
`OR2500001 < OR2500002 < OR2500003`, pairwise distinct. -/
theorem produced_numbers_strictly_increasing_witness :
    producedNumbers 2025 [] 3 =
      [['O','R','2','5','0','0','0','0','1'],
       ['O','R','2','5','0','0','0','0','2'],
       ['O','R','2','5','0','0','0','0','3']] ∧
    (producedNumbers 2025 [] 3).Nodup := by
  have h := produced_numbers_strictly_increasing 2025 [] rfl 3 (by omega)
  exact ⟨h.1.trans (by decide), h.2.2⟩

end OnlineShop
